import Mathlib

/-!
# Verification of the resilience layer of trend-reports-search-api

Shallow embedding of `backend/resilience.py` (circuit breaker, retry with
backoff, health aggregation) and of the `SafeChromaDBWrapper` composition in
`backend/chromadb_wrapper.py`, together with theorems settling the frozen
claims about that layer.

Modelling conventions:
* wall-clock instants (`datetime.now()`) are passed explicitly as an `Int`
  number of seconds; `(a - b).total_seconds()` becomes `a - b`;
* the mutable `CircuitBreakerStats` record owned by a breaker becomes an
  immutable structure threaded through each operation;
* an async dependency call is represented by its outcome (`Except`), and the
  number of times the real dependency was invoked is threaded explicitly so
  that frame conditions ("the wrapped function is never invoked") are
  expressible.
-/

namespace Resilience

/-- Embeds `CircuitState` (resilience.py, lines 26-30). -/
inductive CircuitState where
  | closed
  | open_
  | half_open
deriving DecidableEq, Repr

/-- Embeds `CircuitBreakerConfig` (resilience.py, lines 33-39), with the
source's default values. -/
structure CircuitBreakerConfig where
  failure_threshold : Nat := 5
  success_threshold : Nat := 2
  timeout : Int := 60
  half_open_max_calls : Nat := 3
deriving DecidableEq, Repr

/-- Embeds `CircuitBreakerStats` (resilience.py, lines 42-52).
`last_state_change` is initialised by the caller-supplied construction time
(the source uses `datetime.now()` as the dataclass default). -/
structure CircuitBreakerStats where
  state : CircuitState := CircuitState.closed
  failure_count : Nat := 0
  success_count : Nat := 0
  last_failure_time : Option Int := none
  last_state_change : Int := 0
  total_calls : Nat := 0
  total_failures : Nat := 0
  total_successes : Nat := 0
deriving DecidableEq, Repr

/-- The stats of a freshly constructed `CircuitBreaker` (constructor at
resilience.py, lines 62-74), created at instant `t0`. -/
def CircuitBreakerStats.fresh (t0 : Int) : CircuitBreakerStats :=
  { last_state_change := t0 }

namespace CircuitBreaker

/-- Embeds `CircuitBreaker._transition_to_half_open` (resilience.py,
lines 96-102): sets the state and resets both windowed counters. -/
def transition_to_half_open (s : CircuitBreakerStats) (now : Int) : CircuitBreakerStats :=
  { s with
    state := CircuitState.half_open
    success_count := 0
    failure_count := 0
    last_state_change := now }

/-- Embeds `CircuitBreaker._transition_to_open` (resilience.py,
lines 104-109): sets the state and `last_failure_time`.  Note the source does
NOT reset `failure_count` or `success_count` here. -/
def transition_to_open (s : CircuitBreakerStats) (now : Int) : CircuitBreakerStats :=
  { s with
    state := CircuitState.open_
    last_failure_time := some now
    last_state_change := now }

/-- Embeds `CircuitBreaker._transition_to_closed` (resilience.py,
lines 111-117): sets the state and resets both windowed counters. -/
def transition_to_closed (s : CircuitBreakerStats) (now : Int) : CircuitBreakerStats :=
  { s with
    state := CircuitState.closed
    failure_count := 0
    success_count := 0
    last_state_change := now }

/-- Embeds `CircuitBreaker._should_attempt_call` (resilience.py,
lines 76-94).  The method can mutate the stats (OPEN to HALF_OPEN lazy
transition), so it returns the admission decision together with the updated
stats.  In HALF_OPEN the source compares the LIFETIME `total_calls` counter
against `half_open_max_calls`. -/
def should_attempt_call (cfg : CircuitBreakerConfig) (s : CircuitBreakerStats)
    (now : Int) : Bool × CircuitBreakerStats :=
  match s.state with
  | CircuitState.closed => (true, s)
  | CircuitState.open_ =>
    match s.last_failure_time with
    | some t =>
      if now - t ≥ cfg.timeout then
        (true, transition_to_half_open s now)
      else
        (false, s)
    | none => (false, s)
  | CircuitState.half_open =>
    (decide (s.total_calls < cfg.half_open_max_calls), s)

/-- Embeds `CircuitBreaker.record_success` (resilience.py, lines 119-130). -/
def record_success (cfg : CircuitBreakerConfig) (s : CircuitBreakerStats)
    (now : Int) : CircuitBreakerStats :=
  let s := { s with
    total_calls := s.total_calls + 1
    total_successes := s.total_successes + 1 }
  match s.state with
  | CircuitState.half_open =>
    let s := { s with success_count := s.success_count + 1 }
    if s.success_count ≥ cfg.success_threshold then
      transition_to_closed s now
    else
      s
  | CircuitState.closed => { s with failure_count := 0 }
  | CircuitState.open_ => s

/-- Embeds `CircuitBreaker.record_failure` (resilience.py, lines 132-144). -/
def record_failure (cfg : CircuitBreakerConfig) (s : CircuitBreakerStats)
    (now : Int) : CircuitBreakerStats :=
  let s := { s with
    total_calls := s.total_calls + 1
    total_failures := s.total_failures + 1
    failure_count := s.failure_count + 1
    last_failure_time := some now }
  match s.state with
  | CircuitState.half_open => transition_to_open s now
  | CircuitState.closed =>
    if s.failure_count ≥ cfg.failure_threshold then
      transition_to_open s now
    else
      s
  | CircuitState.open_ => s

/-- Error outcome of `CircuitBreaker.call`: either the rejection raised when
the breaker refuses the attempt (`CircuitBreakerOpenError`, resilience.py,
lines 161-165) or the dependency's own exception re-raised (line 173). -/
inductive CallError (E : Type) where
  | breakerOpen
  | depError (e : E)
deriving DecidableEq, Repr

/-- Embeds `CircuitBreaker.call` (resilience.py, lines 146-173).  `dep` is
the outcome the wrapped async function produces if it is invoked, and
`depCalls` counts invocations of the wrapped function.

Returns (call outcome, updated stats, updated dependency call counter). -/
def call {A E : Type} (cfg : CircuitBreakerConfig) (s : CircuitBreakerStats)
    (now : Int) (dep : Except E A) (depCalls : Nat) :
    Except (CallError E) A × CircuitBreakerStats × Nat :=
  let (allowed, s1) := should_attempt_call cfg s now
  if allowed then
    match dep with
    | Except.ok a => (Except.ok a, record_success cfg s1 now, depCalls + 1)
    | Except.error e =>
      (Except.error (CallError.depError e), record_failure cfg s1 now, depCalls + 1)
  else
    (Except.error CallError.breakerOpen, s1, depCalls)

end CircuitBreaker

/-! Section: Retry with exponential backoff

`retry_with_backoff` (resilience.py, lines 224-278) runs
`for attempt in range(max_retries + 1)`: each iteration awaits the operation;
a success returns immediately; an exception matching the `exceptions` tuple is
caught, and if `attempt == max_retries` it is re-raised, otherwise the loop
sleeps (backoff with jitter, which affects only timing, not the outcome) and
continues; an exception not matching the tuple propagates immediately.

The embedding abstracts the operation as `op : Nat → Except E A`, giving the
outcome of its `i`-th invocation (0-based), and the `exceptions` tuple as the
predicate `retryable : E → Bool`.  `retry_go op retryable attempt remaining`
models the loop from iteration `attempt` with `remaining = max_retries -
attempt` further iterations available; it returns the overall outcome paired
with the number of invocations of `op` performed. -/

def retry_go {E A : Type} (op : Nat → Except E A) (retryable : E → Bool)
    (attempt : Nat) : Nat → Except E A × Nat
  | 0 =>
    -- attempt == max_retries: a success returns; any exception is raised
    -- (retryable ones via the `if attempt == max_retries: raise` branch,
    -- non-retryable ones by propagating past the except clause).
    match op attempt with
    | Except.ok a => (Except.ok a, 1)
    | Except.error e => (Except.error e, 1)
  | remaining + 1 =>
    match op attempt with
    | Except.ok a => (Except.ok a, 1)
    | Except.error e =>
      if retryable e then
        let p := retry_go op retryable (attempt + 1) remaining
        (p.1, p.2 + 1)
      else
        (Except.error e, 1)

/-- Embeds `retry_with_backoff` (resilience.py, lines 224-278): the loop
starting at attempt 0 with `max_retries` retries available after the first
invocation.  Returns (outcome, number of invocations of `op`). -/
def retry_with_backoff {E A : Type} (op : Nat → Except E A)
    (retryable : E → Bool) (max_retries : Nat) : Except E A × Nat :=
  retry_go op retryable 0 max_retries

/-! Section: Health checker -/

/-- Embeds `HealthStatus` (resilience.py, lines 345-349). -/
inductive HealthStatus where
  | healthy
  | degraded
  | unhealthy
deriving DecidableEq, Repr

/-- Outcome of running one registered probe under `with_timeout` inside
`check_health`'s try block (resilience.py, lines 385-397): either the
probe's result or the string of the exception raised (a probe timeout is
such an exception). -/
inductive ProbeOutcome (R : Type) where
  | ok (r : R)
  | err (msg : String)
deriving DecidableEq, Repr

def ProbeOutcome.isOk {R : Type} : ProbeOutcome R → Bool
  | ProbeOutcome.ok _ => true
  | ProbeOutcome.err _ => false

/-- One value of the `results` dict built by `check_health`: the
`{"status": "ok", "result": ...}` entry, the `{"status": "error", ...}`
entry, or the `{"status": "warning", "open_circuits": ...}` entry added
under the key `"circuit_breakers"`. -/
inductive DetailEntry (R : Type) where
  | probe_ok (r : R)
  | probe_err (msg : String)
  | breaker_warning (open_circuits : List String)
deriving DecidableEq, Repr

/-- Embeds `HealthCheck` (resilience.py, lines 352-357); the `details` dict
is modelled as an association list in insertion order (probe names are the
keys of the registered-checks dict, hence unique). -/
structure HealthCheck (R : Type) where
  status : HealthStatus
  details : List (String × DetailEntry R)
deriving DecidableEq, Repr

namespace HealthChecker

/-- Embeds the probe loop of `HealthChecker.check_health` (resilience.py,
lines 382-397), rendered as structural recursion over the registered probes:
each probe contributes its entry to `results`, and any probe failure drives
the running `overall_status` to UNHEALTHY (a success leaves it unchanged). -/
def run_checks {R : Type} :
    List (String × ProbeOutcome R) → List (String × DetailEntry R) × HealthStatus
  | [] => ([], HealthStatus.healthy)
  | (name, ProbeOutcome.ok r) :: rest =>
    let p := run_checks rest
    ((name, DetailEntry.probe_ok r) :: p.1, p.2)
  | (name, ProbeOutcome.err m) :: rest =>
    let p := run_checks rest
    ((name, DetailEntry.probe_err m) :: p.1, HealthStatus.unhealthy)

/-- Embeds `HealthChecker.check_health` (resilience.py, lines 375-417).
`probes` pairs each registered check's name with the outcome of running it
under the per-probe timeout; `breakers` pairs each registered breaker's name
with its current state (the `"state"` field of
`get_all_circuit_breaker_stats()`, resilience.py lines 336-341). -/
def check_health {R : Type} (probes : List (String × ProbeOutcome R))
    (breakers : List (String × CircuitState)) : HealthCheck R :=
  let p := run_checks probes
  let results := p.1
  let overall_status := p.2
  let open_circuits :=
    (breakers.filter (fun b => b.2 == CircuitState.open_)).map Prod.fst
  if open_circuits.isEmpty then
    { status := overall_status, details := results }
  else
    { status := if overall_status = HealthStatus.healthy then
        HealthStatus.degraded
      else
        overall_status
      details := results ++ [("circuit_breakers", DetailEntry.breaker_warning open_circuits)] }

end HealthChecker

end Resilience

namespace ChromaDBWrapper

open Resilience

/-! Section: SafeChromaDBWrapper (backend/chromadb_wrapper.py)

A wrapper instance holds a ChromaDB collection, a circuit breaker, a timeout
and a retry budget.  The embedding threads the breaker's stats and the
collection's invocation counter explicitly; the outcome an operation on the
underlying collection would have is a parameter.

A crucial control-flow fact of the source, reflected below: inside the try
block of both `query` (lines 129-134) and `count` (line 200), the inner
helper is decorated with `@retry_with_backoff(max_retries=..., ...)`.
`retry_with_backoff` (resilience.py, line 224) takes its operation as a
required positional parameter `func`, so this decorator expression calls
`retry_with_backoff` without `func` and raises
`TypeError: retry_with_backoff() missing 1 required positional argument:
'func'` at that point, before the underlying collection method can be
invoked.  The generic `except Exception` handler of each operation then
runs.  (The repository's own tests, e.g. `test_query_success` and
`test_count_success` in `tests/test_chromadb_wrapper.py`, instead expect the
decorated helper to execute the underlying call.) -/

/-- Outcome the underlying collection operation would produce if invoked:
a result, a timeout of the `with_timeout` guard, or an exception. -/
inductive DepOutcome (A : Type) where
  | ok (a : A)
  | timeout
  | exc (msg : String)
deriving DecidableEq, Repr

/-- The typed error taxonomy of `chromadb_wrapper.py` (lines 24-41) together
with the re-raised `CircuitBreakerOpenError` (line 123). -/
inductive WrapperError where
  | circuitBreakerOpen
  | chromaDBTimeout
  | chromaDBQuery (msg : String)
deriving DecidableEq, Repr

/-- The message of the TypeError raised by the decorator expression
`@retry_with_backoff(max_retries=..., ...)` applied without the required
positional argument `func`. -/
def retryDecoratorTypeError : String :=
  "retry_with_backoff() missing 1 required positional argument: func"

/-- Embeds `SafeChromaDBWrapper.query` (chromadb_wrapper.py, lines 84-187).

Control flow of the source: (1) if `_should_attempt_call()` is false, raise
`CircuitBreakerOpenError` (re-raised unchanged by the dedicated except
clause, lines 175-177); (2) otherwise evaluate the decorator
`@retry_with_backoff(max_retries=...)` on `_execute_query`, which raises
`TypeError` (see the section comment) — a generic exception, so the
`except Exception` clause (lines 179-187) calls `record_failure()` and
raises `ChromaDBQueryError`.  The underlying `collection.query` (`underlying`,
counted by `depCalls`) is never reached.

Returns (outcome, updated breaker stats, updated collection.query call
counter). -/
def SafeChromaDBWrapper.query {A : Type} (cfg : CircuitBreakerConfig)
    (s : CircuitBreakerStats) (now : Int) (underlying : DepOutcome A)
    (depCalls : Nat) : Except WrapperError A × CircuitBreakerStats × Nat :=
  let p := CircuitBreaker.should_attempt_call cfg s now
  if p.1 then
    (Except.error (WrapperError.chromaDBQuery
        ("Database query failed: " ++ retryDecoratorTypeError)),
     CircuitBreaker.record_failure cfg p.2 now, depCalls)
  else
    (Except.error WrapperError.circuitBreakerOpen, p.2, depCalls)

/-- Embeds `SafeChromaDBWrapper.count` (chromadb_wrapper.py, lines 189-219).

The try block first evaluates the decorator `@retry_with_backoff(max_retries=2)`
on `_execute_count`, which raises `TypeError` (see the section comment)
before `collection.count` (`underlying`) can be invoked; the
`except Exception` clause (lines 215-219) calls `record_failure()` and —
the documented degraded-read policy, "Don't raise for count - just return
0" — returns 0 instead of re-raising.  `count` consults no breaker gate on
entry.

Returns (returned value — `Except` to make "never raises" expressible —
updated breaker stats, updated collection.count call counter). -/
def SafeChromaDBWrapper.count (cfg : CircuitBreakerConfig)
    (s : CircuitBreakerStats) (now : Int) (underlying : DepOutcome Nat)
    (depCalls : Nat) : Except WrapperError Nat × CircuitBreakerStats × Nat :=
  (Except.ok 0, CircuitBreaker.record_failure cfg s now, depCalls)

end ChromaDBWrapper

namespace Resilience

/-! Section: Event sequences and concrete scenarios

`CBEvent` is one observed call outcome fed back into a breaker:
`record_success` or `record_failure` at a given instant.  `CircuitBreaker.run`
replays a finite sequence of such events against a freshly constructed
breaker, exactly as the two recording methods of the source would be invoked
in order. -/

inductive CBEvent where
  | success (now : Int)
  | failure (now : Int)
deriving DecidableEq, Repr

/-- Apply one recorded outcome to a breaker's stats. -/
def CircuitBreaker.step (cfg : CircuitBreakerConfig) (s : CircuitBreakerStats) :
    CBEvent → CircuitBreakerStats
  | CBEvent.success now => CircuitBreaker.record_success cfg s now
  | CBEvent.failure now => CircuitBreaker.record_failure cfg s now

/-- Replay a finite sequence of recorded outcomes against a breaker freshly
constructed at instant `t0`. -/
def CircuitBreaker.run (cfg : CircuitBreakerConfig) (t0 : Int)
    (events : List CBEvent) : CircuitBreakerStats :=
  events.foldl (CircuitBreaker.step cfg) (CircuitBreakerStats.fresh t0)

/-- The configuration of the spec's `failure_threshold=3` examples (other
fields at the source defaults). -/
def cfgThreshold3 : CircuitBreakerConfig :=
  { failure_threshold := 3 }

/-- Stats after three consecutive failures (at instants 0, 1, 2) on a fresh
breaker with `failure_threshold = 3`: the spec's OPEN-rejection example. -/
def statsAfter3Failures : CircuitBreakerStats :=
  CircuitBreaker.run cfgThreshold3 0
    [CBEvent.failure 0, CBEvent.failure 1, CBEvent.failure 2]

/-- Stats after the sequence failure, failure, success, failure, failure
(at instants 0..4) on a fresh breaker with `failure_threshold = 3`: the
spec's full-reset-on-success example. -/
def statsFFSFF : CircuitBreakerStats :=
  CircuitBreaker.run cfgThreshold3 0
    [CBEvent.failure 0, CBEvent.failure 1, CBEvent.success 2,
     CBEvent.failure 3, CBEvent.failure 4]

/-- The configuration of the repository's own test
`test_circuit_breaker_half_open_to_closed` (tests/test_resilience.py,
lines 86-126): `failure_threshold=2, success_threshold=2, timeout=0`,
`half_open_max_calls` left at its default 3. -/
def cfgHalfOpenTest : CircuitBreakerConfig :=
  { failure_threshold := 2, success_threshold := 2, timeout := 0 }

/-- Replaying `test_circuit_breaker_half_open_to_closed`: the two failing
`breaker.call`s that open the circuit. -/
def halfOpenTestOpened : CircuitBreakerStats :=
  (CircuitBreaker.call (A := String) cfgHalfOpenTest
    (CircuitBreaker.call (A := String) cfgHalfOpenTest
      (CircuitBreakerStats.fresh 0) 0 (Except.error "Failure") 0).2.1
    0 (Except.error "Failure") 1).2.1

/-- Replaying `test_circuit_breaker_half_open_to_closed`: the forced
`breaker._transition_to_half_open()` after the circuit opened. -/
def halfOpenTestProbing : CircuitBreakerStats :=
  CircuitBreaker.transition_to_half_open halfOpenTestOpened 0

/-- Replaying `test_circuit_breaker_half_open_to_closed`: the first
successful probe call in HALF_OPEN. -/
def halfOpenTestProbe1 :
    Except (CircuitBreaker.CallError String) String × CircuitBreakerStats × Nat :=
  CircuitBreaker.call cfgHalfOpenTest halfOpenTestProbing 0
    (Except.ok "success") 2

/-- Replaying `test_circuit_breaker_half_open_to_closed`: the second probe
call in HALF_OPEN (the test expects it to succeed and close the circuit). -/
def halfOpenTestProbe2 :
    Except (CircuitBreaker.CallError String) String × CircuitBreakerStats × Nat :=
  CircuitBreaker.call cfgHalfOpenTest halfOpenTestProbe1.2.1 0
    (Except.ok "success") 2

end Resilience

namespace ChromaDBWrapper

open Resilience

/-- The outcome of `SafeChromaDBWrapper.query` on a wrapper whose breaker is
fresh (CLOSED) when the underlying `collection.query` would succeed
immediately with the result 42 and has not been invoked yet. -/
def freshQuerySuccessScenario :
    Except WrapperError Nat × CircuitBreakerStats × Nat :=
  SafeChromaDBWrapper.query {} (CircuitBreakerStats.fresh 0) 0
    (DepOutcome.ok 42) 0

/-- Concrete always-failing retry operation: invocation `i` raises error `i`
(retryable). -/
def opAlwaysFails : Nat → Except Nat String :=
  fun i => Except.error i

/-- Concrete retry operation failing retryably on its first two invocations,
then succeeding. -/
def opFailsTwice : Nat → Except Nat String :=
  fun i => if i < 2 then Except.error i else Except.ok "done"

/-- The spec's health-aggregation example: three registered probes, one of
which fails. -/
def probesOneFailing : List (String × ProbeOutcome Nat) :=
  [("database", ProbeOutcome.ok 10), ("cache", ProbeOutcome.ok 100),
   ("llm", ProbeOutcome.err "Service down")]

/-- The spec's health-aggregation example: three registered probes, all
succeeding. -/
def probesAllOk : List (String × ProbeOutcome Nat) :=
  [("database", ProbeOutcome.ok 10), ("cache", ProbeOutcome.ok 100),
   ("llm", ProbeOutcome.ok 7)]

end ChromaDBWrapper

namespace Resilience

/-! Section: Theorems -/

open CircuitBreaker

/-- Helper: whenever `_should_attempt_call` answers false, it has also left
the stats record untouched (every `return False` branch of the source
returns without mutating `self.stats`). -/
theorem should_attempt_call_false_frame (cfg : CircuitBreakerConfig)
    (s : CircuitBreakerStats) (now : Int)
    (h : (should_attempt_call cfg s now).1 = false) :
    should_attempt_call cfg s now = (false, s) := by
  unfold should_attempt_call at h ⊢
  cases hs : s.state <;> simp [hs] at h ⊢
  case open_ =>
    cases hl : s.last_failure_time <;> simp [hl] at h ⊢
    case some t =>
      split at h
      · simp at h
      · simp_all
  case half_open => simp [h]

/-- C3 counterexample: on a fresh breaker with `failure_threshold = 3`, the
third `record_failure` performs the CLOSED to OPEN transition, and
immediately after it `failure_count` is 3, not 0 — refuting "for every state
transition ... immediately after the transition both failure_count and
success_count equal zero" at this concrete input. -/
theorem transition_to_open_keeps_failure_count_cex :
    (CircuitBreaker.run cfgThreshold3 0 [CBEvent.failure 0, CBEvent.failure 1]).state
        = CircuitState.closed ∧
    statsAfter3Failures =
      record_failure cfgThreshold3
        (CircuitBreaker.run cfgThreshold3 0 [CBEvent.failure 0, CBEvent.failure 1]) 2 ∧
    statsAfter3Failures.state = CircuitState.open_ ∧
    ¬ (statsAfter3Failures.failure_count = 0 ∧ statsAfter3Failures.success_count = 0) := by
  refine ⟨by decide, rfl, by decide, by decide⟩

/-- C3 (amended): the transitions into HALF_OPEN and into CLOSED reset both
`failure_count` and `success_count` to zero, while the transition into OPEN
(taken from CLOSED at the failure threshold and from HALF_OPEN on any
failure) resets neither counter — it leaves both exactly as they were. -/
theorem counter_reset_on_transitions (s : CircuitBreakerStats) (now : Int) :
    (transition_to_half_open s now).failure_count = 0 ∧
    (transition_to_half_open s now).success_count = 0 ∧
    (transition_to_closed s now).failure_count = 0 ∧
    (transition_to_closed s now).success_count = 0 ∧
    (transition_to_open s now).failure_count = s.failure_count ∧
    (transition_to_open s now).success_count = s.success_count :=
  ⟨rfl, rfl, rfl, rfl, rfl, rfl⟩

/-- C4 counterexample: the spec's own `failure_threshold=3` example.  After
three failures the breaker is OPEN with `total_calls = 3`; the rejected
fourth call raises `CircuitBreakerOpenError` and leaves the dependency's
call counter at 3, but the breaker's own `total_calls` stays 3 as well — it
does NOT increment, refuting the claim's "the breaker's own call-accounting
counter increments" at this concrete input. -/
theorem call_rejected_no_accounting_cex :
    (CircuitBreaker.call (A := String) cfgThreshold3 statsAfter3Failures 10
        (Except.error "boom") 3).1 = Except.error CallError.breakerOpen ∧
    (CircuitBreaker.call (A := String) cfgThreshold3 statsAfter3Failures 10
        (Except.error "boom") 3).2.2 = 3 ∧
    statsAfter3Failures.total_calls = 3 ∧
    ¬ ((CircuitBreaker.call (A := String) cfgThreshold3 statsAfter3Failures 10
        (Except.error "boom") 3).2.1.total_calls
          = statsAfter3Failures.total_calls + 1) :=
  ⟨rfl, rfl, rfl, by decide⟩

/-- C4 (amended): whenever `_should_attempt_call` evaluates false,
`CircuitBreaker.call` raises `CircuitBreakerOpenError`, the wrapped function
is never invoked (the dependency's call counter is unchanged), and the
breaker's stats — its call-accounting counters included — are completely
unchanged (no counter increments on rejection). -/
theorem call_rejected_frame {A E : Type} (cfg : CircuitBreakerConfig)
    (s : CircuitBreakerStats) (now : Int) (dep : Except E A) (depCalls : Nat)
    (h : (should_attempt_call cfg s now).1 = false) :
    CircuitBreaker.call cfg s now dep depCalls =
      (Except.error CallError.breakerOpen, s, depCalls) := by
  unfold CircuitBreaker.call
  rw [should_attempt_call_false_frame cfg s now h]
  rfl

/-- Witness for `call_rejected_frame`: the OPEN breaker of the spec's
example, 8 seconds after its last failure (timeout 60 not elapsed). -/
theorem call_rejected_frame_witness :
    (should_attempt_call cfgThreshold3 statsAfter3Failures 10).1 = false ∧
    CircuitBreaker.call (A := String) cfgThreshold3 statsAfter3Failures 10
        (Except.error "boom") 3 =
      (Except.error CallError.breakerOpen, statsAfter3Failures, 3) :=
  ⟨by decide,
   call_rejected_frame cfgThreshold3 statsAfter3Failures 10
     (Except.error "boom") 3 (by decide)⟩

end Resilience

namespace Resilience

open CircuitBreaker

/-- C5: lazy OPEN to HALF_OPEN recovery.  For a breaker in OPEN state with
`last_failure_time` set to `t`: every `attempt()` evaluated strictly before
`timeout` has elapsed since `t` returns false and leaves the stats (state
OPEN included) unchanged; an `attempt()` evaluated once `timeout` has
elapsed performs the transition to HALF_OPEN and returns true. -/
theorem open_lazy_recovery (cfg : CircuitBreakerConfig)
    (s : CircuitBreakerStats) (now t : Int)
    (h1 : s.state = CircuitState.open_)
    (h2 : s.last_failure_time = some t) :
    (now - t < cfg.timeout → should_attempt_call cfg s now = (false, s)) ∧
    (cfg.timeout ≤ now - t →
      should_attempt_call cfg s now = (true, transition_to_half_open s now) ∧
      (transition_to_half_open s now).state = CircuitState.half_open) := by
  unfold should_attempt_call
  simp only [h1, h2]
  constructor
  · intro hlt
    rw [if_neg (by omega)]
  · intro hge
    rw [if_pos (by omega)]
    exact ⟨rfl, rfl⟩

/-- Witness for `open_lazy_recovery`: the OPEN breaker of the spec's
`failure_threshold=3` example (last failure at instant 2, timeout 60),
probed at instants 10 (too early) and 62 (timeout elapsed). -/
theorem open_lazy_recovery_witness :
    should_attempt_call cfgThreshold3 statsAfter3Failures 10
        = (false, statsAfter3Failures) ∧
    should_attempt_call cfgThreshold3 statsAfter3Failures 62
        = (true, transition_to_half_open statsAfter3Failures 62) :=
  ⟨(open_lazy_recovery cfgThreshold3 statsAfter3Failures 10 2 (by decide)
      (by decide)).1 (by decide),
   ((open_lazy_recovery cfgThreshold3 statsAfter3Failures 62 2 (by decide)
      (by decide)).2 (by decide)).1⟩

/-- C6: a success recorded in CLOSED state sets `failure_count` to 0 (a full
reset, not a decrement), and with `failure_threshold=3` the sequence
failure, failure, success, failure, failure leaves the breaker CLOSED with
`failure_count = 2`. -/
theorem closed_success_full_reset (cfg : CircuitBreakerConfig)
    (s : CircuitBreakerStats) (now : Int)
    (h : s.state = CircuitState.closed) :
    (record_success cfg s now).failure_count = 0 ∧
    statsFFSFF.state = CircuitState.closed ∧
    statsFFSFF.failure_count = 2 := by
  refine ⟨?_, by decide, by decide⟩
  unfold record_success
  simp [h]

/-- Witness for `closed_success_full_reset`: a freshly constructed breaker
(state CLOSED) with the default configuration. -/
theorem closed_success_full_reset_witness :
    (record_success {} (CircuitBreakerStats.fresh 0) 0).failure_count = 0 ∧
    statsFFSFF.state = CircuitState.closed ∧
    statsFFSFF.failure_count = 2 :=
  closed_success_full_reset {} (CircuitBreakerStats.fresh 0) 0 (by decide)

end Resilience

namespace Resilience

open CircuitBreaker

/-- Helper for C10: one recorded outcome preserves the lifetime-counter
equation `total_calls = total_successes + total_failures`. -/
theorem step_preserves_counter_equation (cfg : CircuitBreakerConfig)
    (s : CircuitBreakerStats) (e : CBEvent)
    (h : s.total_calls = s.total_successes + s.total_failures) :
    (CircuitBreaker.step cfg s e).total_calls =
      (CircuitBreaker.step cfg s e).total_successes +
        (CircuitBreaker.step cfg s e).total_failures := by
  cases e with
  | success now =>
    unfold CircuitBreaker.step record_success
    cases hs : s.state <;>
      simp only [hs, transition_to_closed] <;>
      first
        | omega
        | (split <;> simp <;> omega)
  | failure now =>
    unfold CircuitBreaker.step record_failure
    cases hs : s.state <;>
      simp only [hs, transition_to_open] <;>
      first
        | omega
        | (split <;> simp <;> omega)

/-- Helper for C10: the counter equation is preserved by replaying any
suffix of recorded outcomes from any state satisfying it. -/
theorem foldl_preserves_counter_equation (cfg : CircuitBreakerConfig) :
    ∀ (events : List CBEvent) (s : CircuitBreakerStats),
      s.total_calls = s.total_successes + s.total_failures →
      (events.foldl (CircuitBreaker.step cfg) s).total_calls =
        (events.foldl (CircuitBreaker.step cfg) s).total_successes +
          (events.foldl (CircuitBreaker.step cfg) s).total_failures := by
  intro events
  induction events with
  | nil => intro s h; exact h
  | cons e rest ih =>
    intro s h
    exact ih _ (step_preserves_counter_equation cfg s e h)

/-- C10: after every finite sequence of `record_success`/`record_failure`
calls on a freshly constructed breaker, `total_calls = total_successes +
total_failures`; and none of the three state-transition helpers modifies
any of the three lifetime counters. -/
theorem lifetime_counter_consistency (cfg : CircuitBreakerConfig) (t0 : Int)
    (events : List CBEvent) :
    ((CircuitBreaker.run cfg t0 events).total_calls =
      (CircuitBreaker.run cfg t0 events).total_successes +
        (CircuitBreaker.run cfg t0 events).total_failures) ∧
    (∀ (s : CircuitBreakerStats) (now : Int),
      (transition_to_open s now).total_calls = s.total_calls ∧
      (transition_to_open s now).total_successes = s.total_successes ∧
      (transition_to_open s now).total_failures = s.total_failures ∧
      (transition_to_half_open s now).total_calls = s.total_calls ∧
      (transition_to_half_open s now).total_successes = s.total_successes ∧
      (transition_to_half_open s now).total_failures = s.total_failures ∧
      (transition_to_closed s now).total_calls = s.total_calls ∧
      (transition_to_closed s now).total_successes = s.total_successes ∧
      (transition_to_closed s now).total_failures = s.total_failures) :=
  ⟨foldl_preserves_counter_equation cfg events (CircuitBreakerStats.fresh t0) rfl,
   fun _ _ => ⟨rfl, rfl, rfl, rfl, rfl, rfl, rfl, rfl, rfl⟩⟩

/-- C2: the HALF_OPEN probe budget is computed against the LIFETIME
`total_calls` counter, not against the calls admitted since the breaker
entered HALF_OPEN.  Replaying the repository's own test
`test_circuit_breaker_half_open_to_closed` (failure_threshold=2,
success_threshold=2, half_open_max_calls=3): after two failures the breaker
is OPEN with `total_calls = 2`; after the (test-forced) transition to
HALF_OPEN, the first probe is admitted and succeeds, but the very next
`attempt()` — only one probe having been admitted since the breaker entered
HALF_OPEN, fewer than the budget of 3 — returns false, and the second probe
call is rejected with `CircuitBreakerOpenError` while the test expects it
to succeed and close the circuit. -/
theorem half_open_probe_budget_uses_lifetime_counter :
    halfOpenTestOpened.state = CircuitState.open_ ∧
    halfOpenTestOpened.total_calls = 2 ∧
    halfOpenTestProbing.state = CircuitState.half_open ∧
    halfOpenTestProbe1.1 = Except.ok "success" ∧
    halfOpenTestProbe1.2.1.state = CircuitState.half_open ∧
    halfOpenTestProbe1.2.1.success_count = 1 ∧
    (should_attempt_call cfgHalfOpenTest halfOpenTestProbe1.2.1 0).1 = false ∧
    halfOpenTestProbe2.1 = Except.error CallError.breakerOpen ∧
    halfOpenTestProbe2.2.1.state = CircuitState.half_open :=
  ⟨rfl, rfl, rfl, rfl, rfl, rfl, rfl, rfl, rfl⟩

end Resilience

namespace ChromaDBWrapper

open Resilience Resilience.CircuitBreaker

/-- C1: the success path of `SafeChromaDBWrapper.query` is unreachable.  On
a wrapper whose breaker is fresh (CLOSED, so the attempt is permitted) and
whose underlying `collection.query` would return the result 42 immediately,
`query` does not return that result: the decorator expression
`@retry_with_backoff(max_retries=...)` raises TypeError before the
underlying call, so `query` raises `ChromaDBQueryError`, never invokes
`collection.query` (its call counter stays 0), and records a FAILURE — not
a success — on the breaker. -/
theorem query_success_path_unreachable :
    (CircuitBreakerStats.fresh 0).state = CircuitState.closed ∧
    (should_attempt_call {} (CircuitBreakerStats.fresh 0) 0).1 = true ∧
    freshQuerySuccessScenario.1 =
      Except.error (WrapperError.chromaDBQuery
        ("Database query failed: " ++ retryDecoratorTypeError)) ∧
    freshQuerySuccessScenario.2.2 = 0 ∧
    freshQuerySuccessScenario.2.1.total_failures = 1 ∧
    freshQuerySuccessScenario.2.1.total_successes = 0 :=
  ⟨rfl, rfl, rfl, rfl, rfl, rfl⟩

/-- C9: `SafeChromaDBWrapper.count` never raises: whatever the outcome of
the underlying `collection.count` call would be — in particular when the
underlying dependency fails on every invocation — `count` returns the safe
default 0 instead of propagating an error, and `record_failure` is invoked
on the breaker for that call. -/
theorem count_degraded_read (cfg : CircuitBreakerConfig)
    (s : CircuitBreakerStats) (now : Int) (underlying : DepOutcome Nat)
    (depCalls : Nat) :
    (SafeChromaDBWrapper.count cfg s now underlying depCalls).1 =
      Except.ok 0 ∧
    (SafeChromaDBWrapper.count cfg s now underlying depCalls).2.1 =
      record_failure cfg s now :=
  ⟨rfl, rfl⟩

end ChromaDBWrapper

namespace Resilience

/-- Helper for C7: the retry loop performs at most `remaining + 1`
invocations of the operation. -/
theorem retry_go_invocations_le {E A : Type} (op : Nat → Except E A)
    (retryable : E → Bool) :
    ∀ (remaining attempt : Nat),
      (retry_go op retryable attempt remaining).2 ≤ remaining + 1 := by
  intro remaining
  induction remaining with
  | zero =>
    intro attempt
    unfold retry_go
    cases op attempt <;> simp
  | succ r ih =>
    intro attempt
    unfold retry_go
    cases h : op attempt with
    | ok a => simp
    | error e =>
      by_cases hr : retryable e = true
      · simp only [hr, if_pos]
        have := ih (attempt + 1)
        simp
        omega
      · simp [hr]

/-- Helper for C7: if every iteration from `attempt` to `attempt + remaining`
fails with a retryable error, the loop performs all `remaining + 1`
invocations and raises the error observed at the last one. -/
theorem retry_go_all_fail {E A : Type} (op : Nat → Except E A)
    (retryable : E → Bool) (errs : Nat → E) :
    ∀ (remaining attempt : Nat),
      (∀ i, attempt ≤ i → i ≤ attempt + remaining →
        op i = Except.error (errs i) ∧ retryable (errs i) = true) →
      retry_go op retryable attempt remaining =
        (Except.error (errs (attempt + remaining)), remaining + 1) := by
  intro remaining
  induction remaining with
  | zero =>
    intro attempt h
    obtain ⟨h1, _⟩ := h attempt le_rfl (by omega)
    unfold retry_go
    rw [h1]
    simp
  | succ r ih =>
    intro attempt h
    obtain ⟨h1, h2⟩ := h attempt le_rfl (by omega)
    unfold retry_go
    rw [h1]
    simp only [h2, if_pos]
    have hrec := ih (attempt + 1) (fun i hi1 hi2 => h i (by omega) (by omega))
    rw [hrec]
    have heq : attempt + 1 + r = attempt + (r + 1) := by omega
    rw [heq]

/-- Helper for C7: if the iterations from `attempt` to `attempt + k - 1`
fail with retryable errors and iteration `attempt + k` succeeds (with
`k ≤ remaining`), the loop returns that success after exactly `k + 1`
invocations. -/
theorem retry_go_succeeds {E A : Type} (op : Nat → Except E A)
    (retryable : E → Bool) (errs : Nat → E) (a : A) :
    ∀ (k attempt remaining : Nat), k ≤ remaining →
      (∀ i, attempt ≤ i → i < attempt + k →
        op i = Except.error (errs i) ∧ retryable (errs i) = true) →
      op (attempt + k) = Except.ok a →
      retry_go op retryable attempt remaining = (Except.ok a, k + 1) := by
  intro k
  induction k with
  | zero =>
    intro attempt remaining _ _ hok
    have hok0 : op attempt = Except.ok a := by simpa using hok
    cases remaining <;> (unfold retry_go; rw [hok0])
  | succ k ih =>
    intro attempt remaining hk hfail hok
    cases remaining with
    | zero => omega
    | succ r =>
      obtain ⟨h1, h2⟩ := hfail attempt le_rfl (by omega)
      unfold retry_go
      rw [h1]
      simp only [h2, if_pos]
      have hok1 : op (attempt + 1 + k) = Except.ok a := by
        rw [show attempt + 1 + k = attempt + (k + 1) from by omega]
        exact hok
      have hrec := ih (attempt + 1) r (by omega)
        (fun i hi1 hi2 => hfail i (by omega) (by omega)) hok1
      rw [hrec]

/-- C7: retry attempt budget of `retry_with_backoff`.  For every operation
and retry budget: (1) the operation is invoked at most `max_retries + 1`
times; (2) if every invocation up to `max_retries` fails with a retryable
error, the loop raises the last observed error after exactly
`max_retries + 1` invocations; (3) if the operation fails retryably on its
first `k` invocations (`k ≤ max_retries`) and then succeeds, the loop
returns that success result after exactly `k + 1` invocations. -/
theorem retry_attempt_budget {E A : Type} (op : Nat → Except E A)
    (retryable : E → Bool) (max_retries k : Nat) (errs : Nat → E) (a : A) :
    (retry_with_backoff op retryable max_retries).2 ≤ max_retries + 1 ∧
    ((∀ i, i ≤ max_retries →
        op i = Except.error (errs i) ∧ retryable (errs i) = true) →
      retry_with_backoff op retryable max_retries =
        (Except.error (errs max_retries), max_retries + 1)) ∧
    ((∀ i, i < k → op i = Except.error (errs i) ∧ retryable (errs i) = true) →
      op k = Except.ok a → k ≤ max_retries →
      retry_with_backoff op retryable max_retries = (Except.ok a, k + 1)) := by
  refine ⟨retry_go_invocations_le op retryable max_retries 0, ?_, ?_⟩
  · intro h
    have hall := retry_go_all_fail op retryable errs max_retries 0
      (fun i _ hi2 => h i (by omega))
    simpa [retry_with_backoff] using hall
  · intro hfail hok hk
    have hsucc := retry_go_succeeds op retryable errs a k 0 max_retries hk
      (fun i _ hi2 => hfail i (by omega)) (by simpa using hok)
    simpa [retry_with_backoff] using hsucc

/-- Witness for `retry_attempt_budget`: with `max_retries = 2`, an
always-failing operation raises its last error (raised on invocation index
2) after exactly 3 invocations; with `max_retries = 3`, an operation
failing twice then succeeding returns the success after exactly 3
invocations. -/
theorem retry_attempt_budget_witness :
    retry_with_backoff ChromaDBWrapper.opAlwaysFails (fun _ => true) 2 =
      (Except.error 2, 3) ∧
    retry_with_backoff ChromaDBWrapper.opFailsTwice (fun _ => true) 3 =
      (Except.ok "done", 3) :=
  ⟨(retry_attempt_budget ChromaDBWrapper.opAlwaysFails (fun _ => true) 2 0
      (fun i => i) "x").2.1 (fun i _ => ⟨rfl, rfl⟩),
   (retry_attempt_budget ChromaDBWrapper.opFailsTwice (fun _ => true) 3 2
      (fun i => i) "done").2.2
     (by intro i hi; interval_cases i <;> exact ⟨rfl, rfl⟩) rfl (by omega)⟩

end Resilience

namespace Resilience

/-- Helper for C8: the probe loop reports HEALTHY exactly when every probe
succeeded, UNHEALTHY otherwise (a failure anywhere in the loop sets the
running status to UNHEALTHY and nothing resets it). -/
theorem run_checks_status {R : Type} (ps : List (String × ProbeOutcome R)) :
    (HealthChecker.run_checks ps).2 =
      if ps.all (fun p => p.2.isOk) then HealthStatus.healthy
      else HealthStatus.unhealthy := by
  induction ps with
  | nil => rfl
  | cons p rest ih =>
    obtain ⟨n, o⟩ := p
    cases o with
    | ok r => simpa [HealthChecker.run_checks, ProbeOutcome.isOk] using ih
    | err m => simp [HealthChecker.run_checks, ProbeOutcome.isOk]

/-- Helper for C8: the probe loop emits exactly one `results` entry per
registered probe, under the probe's name, in registration order. -/
theorem run_checks_keys {R : Type} (ps : List (String × ProbeOutcome R)) :
    (HealthChecker.run_checks ps).1.map Prod.fst = ps.map Prod.fst := by
  induction ps with
  | nil => rfl
  | cons p rest ih =>
    obtain ⟨n, o⟩ := p
    cases o with
    | ok r => simpa [HealthChecker.run_checks] using ih
    | err m => simpa [HealthChecker.run_checks] using ih

/-- C8: health aggregation rule of `check_health`.  For every set of
registered probes (with the outcome of running each under the per-probe
timeout) and every set of registered breakers: (1) if at least one probe
raised or timed out, the overall status is UNHEALTHY; (2) if every probe
succeeded and at least one registered breaker is OPEN, it is DEGRADED;
(3) if every probe succeeded and no registered breaker is OPEN, it is
HEALTHY; and (4) the details map contains an entry for every registered
probe — no short-circuit on the first failure. -/
theorem check_health_aggregation {R : Type}
    (probes : List (String × ProbeOutcome R))
    (breakers : List (String × CircuitState)) :
    ((∃ p ∈ probes, p.2.isOk = false) →
      (HealthChecker.check_health probes breakers).status =
        HealthStatus.unhealthy) ∧
    ((∀ p ∈ probes, p.2.isOk = true) →
      (∃ b ∈ breakers, b.2 = CircuitState.open_) →
      (HealthChecker.check_health probes breakers).status =
        HealthStatus.degraded) ∧
    ((∀ p ∈ probes, p.2.isOk = true) →
      (∀ b ∈ breakers, b.2 ≠ CircuitState.open_) →
      (HealthChecker.check_health probes breakers).status =
        HealthStatus.healthy) ∧
    (∀ p ∈ probes,
      p.1 ∈ (HealthChecker.check_health probes breakers).details.map Prod.fst) := by
  have hkeys := run_checks_keys probes
  have hstat := run_checks_status probes
  refine ⟨?_, ?_, ?_, ?_⟩
  · intro ⟨p, hp, hfail⟩
    have hall : probes.all (fun p => p.2.isOk) = false := by
      cases hb : probes.all (fun p => p.2.isOk) with
      | false => rfl
      | true =>
        have := List.all_eq_true.1 hb p hp
        rw [hfail] at this
        exact (Bool.false_ne_true this).elim
    simp [HealthChecker.check_health, hstat, hall]
    split <;> rfl
  · intro hok ⟨b, hb, hopen⟩
    have hall : probes.all (fun p => p.2.isOk) = true :=
      List.all_eq_true.2 hok
    have hmem : b ∈ breakers.filter (fun b => b.2 == CircuitState.open_) :=
      List.mem_filter.2 ⟨hb, by simp [hopen]⟩
    have hO : breakers.filter (fun b => b.2 == CircuitState.open_) ≠ [] := by
      intro hnil
      rw [hnil] at hmem
      exact List.not_mem_nil b hmem
    obtain ⟨hd, tl, hL⟩ := List.exists_cons_of_ne_nil hO
    simp [HealthChecker.check_health, hstat, hall, hL]
  · intro hok hnone
    have hall : probes.all (fun p => p.2.isOk) = true :=
      List.all_eq_true.2 hok
    have hO : breakers.filter (fun b => b.2 == CircuitState.open_) = [] :=
      List.filter_eq_nil_iff.2 (fun b hb => by simp [hnone b hb])
    simp [HealthChecker.check_health, hstat, hall, hO]
  · intro p hp
    have hname : p.1 ∈ (HealthChecker.run_checks probes).1.map Prod.fst := by
      rw [hkeys]
      exact List.mem_map_of_mem Prod.fst hp
    by_cases hO : (breakers.filter (fun b => b.2 == CircuitState.open_)) = []
    · have hdet : (HealthChecker.check_health probes breakers).details =
          (HealthChecker.run_checks probes).1 := by
        simp [HealthChecker.check_health, hO]
      rw [hdet]
      exact hname
    · obtain ⟨hd, tl, hL⟩ := List.exists_cons_of_ne_nil hO
      have hdet : (HealthChecker.check_health probes breakers).details =
          (HealthChecker.run_checks probes).1 ++
            [("circuit_breakers",
              DetailEntry.breaker_warning ((hd :: tl).map Prod.fst))] := by
        simp [HealthChecker.check_health, hL]
      rw [hdet, List.map_append]
      exact List.mem_append_left _ hname

/-- Witness for `check_health_aggregation`: the spec's example — three
registered probes with one failing yield UNHEALTHY (with the failing
probe's entry present in the details); three succeeding probes with one
OPEN breaker yield DEGRADED; three succeeding probes with no OPEN breaker
yield HEALTHY. -/
theorem check_health_aggregation_witness :
    (HealthChecker.check_health ChromaDBWrapper.probesOneFailing
        ([] : List (String × CircuitState))).status = HealthStatus.unhealthy ∧
    (HealthChecker.check_health ChromaDBWrapper.probesAllOk
        [("chromadb", CircuitState.open_)]).status = HealthStatus.degraded ∧
    (HealthChecker.check_health ChromaDBWrapper.probesAllOk
        [("chromadb", CircuitState.closed)]).status = HealthStatus.healthy ∧
    "llm" ∈ (HealthChecker.check_health ChromaDBWrapper.probesOneFailing
        ([] : List (String × CircuitState))).details.map Prod.fst :=
  ⟨(check_health_aggregation ChromaDBWrapper.probesOneFailing []).1
      ⟨("llm", ProbeOutcome.err "Service down"), by decide, rfl⟩,
   (check_health_aggregation ChromaDBWrapper.probesAllOk
      [("chromadb", CircuitState.open_)]).2.1 (by decide)
      ⟨("chromadb", CircuitState.open_), by decide, rfl⟩,
   (check_health_aggregation ChromaDBWrapper.probesAllOk
      [("chromadb", CircuitState.closed)]).2.2.1 (by decide) (by decide),
   (check_health_aggregation ChromaDBWrapper.probesOneFailing []).2.2.2
      ("llm", ProbeOutcome.err "Service down") (by decide)⟩

end Resilience
